import Mathlib

/-!
Shallow embedding of the Kodo pairing/relay server (src/server/src/index.ts,
production JS backend half, plus the TS-server disconnect handler and
services/translationService.ts) together with theorems settling the
frozen claims about its specification.

Redis is modelled as association lists keyed by plain strings (the
`qr_token:`/`room:`/`user_socket:` prefixes are dropped since each record
family lives in its own list).  Socket.IO is modelled as a connection
registry (list of connected socket ids) plus a room-membership list; an
emitted event is a pair of target socket id and payload.  Fresh random
identifiers (crypto.randomBytes / uuid) are passed in as parameters.
The OpenAI call is an abstract collaborator parameter returning
`Option String` (`none` models a thrown error).
-/

namespace Kodo

/-- A participant slot stored inside a room record: socket id and language. -/
structure Participant where
  socketId : String
  language : String
deriving Repr, DecidableEq

/-- Room record stored under key `room:` + roomId by the JS backend.
Direct pairing stores userA and userB; the pending path stores the token,
userB only, and pendingUserA = true. -/
structure RoomData where
  token : Option String := none
  userA : Option Participant := none
  userB : Option Participant := none
  pendingUserA : Bool := false
deriving Repr, DecidableEq

/-- Token record stored under key `qr_token:` + token.
The HTTP route stores requestingUserId, hostLanguage and useHttp;
the generateToken socket event stores only requestingUserId (so
hostLanguage is absent); listenForToken overwrites requestingUserId
and hostLanguage. -/
structure TokenData where
  requestingUserId : String
  hostLanguage : Option String := none
  useHttp : Bool := false
deriving Repr, DecidableEq

/-- A token record together with the TTL (seconds) passed to redis SET EX. -/
structure StoredToken where
  data : TokenData
  ttl : Nat
deriving Repr, DecidableEq

/-- A room record together with the TTL passed to redis SET
(none: the direct-pairing path stores the room without an EX option). -/
structure StoredRoom where
  data : RoomData
  ttl : Option Nat
deriving Repr, DecidableEq

/-- Events emitted to clients (socket.emit / io.to(...).emit). -/
inductive Event where
  | errorMsg (message : String)
  | tokenGenerated (token : String)
  | waitingForHost (token : String) (roomId : String)
  | joinedRoom (roomId : String) (partnerLanguage : String)
  | newMessage (original : String) (translated : String) (sender : String)
  | partnerLeft
deriving Repr, DecidableEq

/-- Whole server state of the JS backend: the three redis record families,
the Socket.IO room memberships (socketId, roomId), and the set of
currently connected socket ids (the connection registry). -/
structure ServerState where
  tokens : List (String × StoredToken)
  rooms : List (String × StoredRoom)
  userSocket : List (String × String)
  socketRooms : List (String × String)
  connected : List String
deriving Repr, DecidableEq

/-- redis SET: overwrite the value under a key. -/
def rset {α : Type} (k : String) (v : α) (l : List (String × α)) : List (String × α) :=
  (k, v) :: l.filter (fun p => !(p.1 == k))

/-- redis DEL: remove a key. -/
def rdel {α : Type} (k : String) (l : List (String × α)) : List (String × α) :=
  l.filter (fun p => !(p.1 == k))

/-- redis GET: first binding of a key. -/
def rget {α : Type} (k : String) (l : List (String × α)) : Option α :=
  List.lookup k l

/-- Members of a Socket.IO room (targets of io.to(roomId).emit). -/
def roomMembers (roomId : String) (st : ServerState) : List String :=
  (st.socketRooms.filter (fun p => p.2 == roomId)).map Prod.fst

/-- POST /generate-qr (JS backend): store a fresh token with
requestingUserId from body/header (default the placeholder
"http-generated"), hostLanguage from the body (default "en"), and TTL
600 seconds when body.useHttp is true, otherwise 120 seconds. -/
def generateQrHttp (useHttp : Bool) (socketId : Option String) (language : Option String)
    (freshToken : String) (st : ServerState) : ServerState × String :=
  let requestingSocketId := socketId.getD "http-generated"
  let hostLanguage := language.getD "en"
  let ttlInSeconds := if useHttp then 600 else 120
  let stored : StoredToken :=
    { data := { requestingUserId := requestingSocketId
              , hostLanguage := some hostLanguage
              , useHttp := useHttp }
    , ttl := ttlInSeconds }
  ({ st with tokens := rset freshToken stored st.tokens }, freshToken)

/-- Socket event generateToken: store a fresh token bound to the caller,
with no hostLanguage and no useHttp flag, TTL 300 seconds, and emit
tokenGenerated back to the caller. -/
def generateToken (socketId : String) (freshToken : String) (st : ServerState) :
    ServerState × List (String × Event) :=
  let stored : StoredToken :=
    { data := { requestingUserId := socketId, hostLanguage := none, useHttp := false }
    , ttl := 300 }
  ({ st with tokens := rset freshToken stored st.tokens },
   [(socketId, Event.tokenGenerated freshToken)])

/-- Socket event join (token redemption by client B). -/
def join (socketId : String) (token : String) (language : String) (freshRoomId : String)
    (st : ServerState) : ServerState × List (String × Event) :=
  match rget token st.tokens with
  | none => (st, [(socketId, Event.errorMsg "Invalid or expired QR code.")])
  | some stored =>
    let tokenData := stored.data
    let userASocketId := tokenData.requestingUserId
    let isHttpGenerated := tokenData.useHttp
    if st.connected.contains userASocketId then
      -- direct pairing path: issuer socket is resolvable
      let userALanguage := tokenData.hostLanguage.getD "en"
      let room : RoomData :=
        { token := none
        , userA := some { socketId := userASocketId, language := userALanguage }
        , userB := some { socketId := socketId, language := language }
        , pendingUserA := false }
      let st1 := { st with rooms := rset freshRoomId { data := room, ttl := none } st.rooms }
      let st2 := { st1 with userSocket := rset socketId freshRoomId
                              (rset userASocketId freshRoomId st1.userSocket) }
      let st3 := { st2 with socketRooms :=
                    (socketId, freshRoomId) :: (userASocketId, freshRoomId) :: st2.socketRooms }
      let st4 := { st3 with tokens := rdel token st3.tokens }
      (st4, [(socketId, Event.joinedRoom freshRoomId userALanguage),
             (userASocketId, Event.joinedRoom freshRoomId language)])
    else if isHttpGenerated || (userASocketId == "http-generated") then
      -- pending-room path: issuer not yet listening, keep the token
      let room : RoomData :=
        { token := some token
        , userA := none
        , userB := some { socketId := socketId, language := language }
        , pendingUserA := true }
      let st1 := { st with rooms := rset freshRoomId { data := room, ttl := some 600 } st.rooms }
      let st2 := { st1 with userSocket := rset socketId freshRoomId st1.userSocket }
      let st3 := { st2 with socketRooms := (socketId, freshRoomId) :: st2.socketRooms }
      (st3, (socketId, Event.waitingForHost token freshRoomId) ::
            (roomMembers freshRoomId st3).map
              (fun m => (m, Event.waitingForHost token freshRoomId)))
    else
      ({ st with tokens := rdel token st.tokens },
       [(socketId, Event.errorMsg "The user who generated the code is not available.")])

/-- The scan-on-bind loop of listenForToken: walk the room records, and at
the first room whose stored token matches and is pending, complete the
pairing (join the socket, fill userA, map the host, notify both sides)
and stop.  A pending room lacking userB would make the source crash
after socket.join, leaving no further effects; that is mirrored here. -/
def scanPendingRooms (socketId : String) (hostLanguage : String) (token : String)
    (st : ServerState) : List (String × StoredRoom) → ServerState × List (String × Event)
  | [] => (st, [])
  | (roomId, stored) :: rest =>
    let rd := stored.data
    if rd.token == some token && rd.pendingUserA then
      let st1 := { st with socketRooms := (socketId, roomId) :: st.socketRooms }
      match rd.userB with
      | none => (st1, [])
      | some userB =>
        let hostSlot : Participant := { socketId := socketId, language := hostLanguage }
        let rd1 := { rd with pendingUserA := false, userA := some hostSlot }
        let st2 := { st1 with rooms := rset roomId { data := rd1, ttl := some 600 } st1.rooms }
        let st3 := { st2 with userSocket := rset socketId roomId st2.userSocket }
        let emitsB :=
          if st3.connected.contains userB.socketId then
            [(userB.socketId, Event.joinedRoom roomId hostLanguage)]
          else []
        (st3, emitsB ++ [(socketId, Event.joinedRoom roomId userB.language)])
    else
      scanPendingRooms socketId hostLanguage token st rest

/-- Socket event listenForToken (bind issuer): update the token record to
the socket id and language of the caller (TTL 600), then scan room records for
a pending room carrying this token and complete its pairing. -/
def listenForToken (socketId : String) (token : String) (language : Option String)
    (st : ServerState) : ServerState × List (String × Event) :=
  let hostLanguage := language.getD "en"
  match rget token st.tokens with
  | none => (st, [(socketId, Event.errorMsg "Token not found or expired")])
  | some stored =>
    let d := stored.data
    let d1 := { d with requestingUserId := socketId, hostLanguage := some hostLanguage }
    let st1 := { st with tokens := rset token { data := d1, ttl := 600 } st.tokens }
    scanPendingRooms socketId hostLanguage token st1 st1.rooms

/-- Result of the message-relay handler: new state, emitted events, and
whether the translation collaborator was invoked. -/
structure RelayResult where
  state : ServerState
  emits : List (String × Event)
  translatorCalled : Bool
deriving Repr, DecidableEq

/-- Socket event sendMessage: identify sender slot and recipient in the
room, translate only when the languages differ (a collaborator error
replaces the translated text with the literal marker), then emit
newMessage to the recipient when connected and echo it to the sender. -/
def sendMessage (translate : String → String → String → Option String)
    (socketId : String) (roomId : String) (messageText : String)
    (st : ServerState) : RelayResult :=
  match rget roomId st.rooms with
  | none => ⟨st, [(socketId, Event.errorMsg "Error: You are not in a valid room.")], false⟩
  | some stored =>
    let roomData := stored.data
    -- userA is checked first, exactly as in the source
    let slots : Option (String × Option Participant) :=
      match roomData.userA, roomData.userB with
      | some a, other =>
        if a.socketId == socketId then some (a.language, other)
        else match other with
             | some b => if b.socketId == socketId then some (b.language, some a) else none
             | none => none
      | none, some b => if b.socketId == socketId then some (b.language, none) else none
      | none, none => none
    match slots with
    | none => ⟨st, [(socketId, Event.errorMsg "Error: Could not identify sender in room.")], false⟩
    | some (senderLang, recipientOpt) =>
      match recipientOpt with
      | none => ⟨st, [(socketId, Event.errorMsg "Error: Partner is not available for translation.")], false⟩
      | some recipient =>
        if recipient.socketId == "" || recipient.language == "" then
          ⟨st, [(socketId, Event.errorMsg "Error: Partner is not available for translation.")], false⟩
        else
          let targetLang := recipient.language
          if senderLang == targetLang then
            let toRecipient :=
              if st.connected.contains recipient.socketId then
                [(recipient.socketId, Event.newMessage messageText messageText "partner")]
              else []
            ⟨st, toRecipient ++ [(socketId, Event.newMessage messageText messageText "self")], false⟩
          else
            let payloadTranslated :=
              match translate senderLang targetLang messageText with
              | some t => t
              | none => "(Translation failed)"
            let toRecipient :=
              if st.connected.contains recipient.socketId then
                [(recipient.socketId, Event.newMessage messageText payloadTranslated "partner")]
              else []
            ⟨st, toRecipient ++ [(socketId, Event.newMessage messageText payloadTranslated "self")],
             true⟩

/-- Socket disconnect handler of the JS backend.  The runtime removes the
closed socket from the registry and its Socket.IO rooms before the
handler body runs; the handler then looks up the user_socket mapping,
notifies a present partner, and removes only the disconnecting side
(deleting the whole room when no partner id is present). -/
def disconnectJs (socketId : String) (st : ServerState) : ServerState × List (String × Event) :=
  let st0 := { st with
    connected := st.connected.filter (fun c => !(c == socketId)),
    socketRooms := st.socketRooms.filter (fun p => !(p.1 == socketId)) }
  match rget socketId st0.userSocket with
  | none => (st0, [])
  | some roomId =>
    match rget roomId st0.rooms with
    | none => ({ st0 with userSocket := rdel socketId st0.userSocket }, [])
    | some stored =>
      let roomData := stored.data
      let partnerSocketId : Option String :=
        if roomData.userA.any (fun a => a.socketId == socketId) then
          roomData.userB.map (fun b => b.socketId)
        else if roomData.userB.any (fun b => b.socketId == socketId) then
          roomData.userA.map (fun a => a.socketId)
        else none
      match partnerSocketId with
      | some partner =>
        if partner == "" then
          ({ st0 with
            rooms := rdel roomId st0.rooms,
            userSocket := rdel socketId st0.userSocket }, [])
        else
          let emits :=
            if st0.connected.contains partner then [(partner, Event.partnerLeft)] else []
          -- room record is intentionally left untouched here (source keeps it
          -- for a potential reconnect); only the mapping of this side is deleted
          ({ st0 with userSocket := rdel socketId st0.userSocket }, emits)
      | none =>
        ({ st0 with
          rooms := rdel roomId st0.rooms,
          userSocket := rdel socketId st0.userSocket }, [])

/-- translateMessage of services/translationService.ts: same language
passes the text through; an API error yields the bracketed marker in
front of the original text; a falsy (empty) API answer falls back to
the original text. -/
def translateMessage (api : String → String → String → Option String)
    (text : String) (sourceLanguage : String) (targetLanguage : String) : String :=
  if sourceLanguage == targetLanguage then text
  else
    match api text sourceLanguage targetLanguage with
    | some response => if response == "" then text else response
    | none => "[Translation Error] " ++ text

/-- Room slot of the TS-server iteration (socketId is nullable). -/
structure TsSlot where
  socketId : Option String
  language : String
deriving Repr, DecidableEq

/-- Room record of the TS-server iteration (host/guest naming). -/
structure TsRoom where
  host : TsSlot
  guest : TsSlot
deriving Repr, DecidableEq

/-- State touched by the TS-server disconnect handler. -/
structure TsState where
  rooms : List (String × TsRoom)
  socketMap : List (String × String)
deriving Repr, DecidableEq

/-- JavaScript truthiness of a nullable string. -/
def jsTruthy : Option String → Bool
  | none => false
  | some s => !(s == "")

/-- Socket disconnect handler of the TS-server iteration: notify a present
partner, delete the room when the other slot is already empty, otherwise
null out the disconnecting slot, and delete the mapping of this socket. -/
def disconnectTs (socketId : String) (st : TsState) : TsState × List (String × Event) :=
  match rget socketId st.socketMap with
  | none => (st, [])
  | some roomId =>
    match rget roomId st.rooms with
    | none =>
      -- room record already gone: still delete the stale socket mapping
      ({ st with socketMap := rdel socketId st.socketMap }, [])
    | some room =>
      let emits : List (String × Event) :=
        if room.host.socketId == some socketId && jsTruthy room.guest.socketId then
          match room.guest.socketId with
          | some g => [(g, Event.partnerLeft)]
          | none => []
        else if room.guest.socketId == some socketId && jsTruthy room.host.socketId then
          match room.host.socketId with
          | some h => [(h, Event.partnerLeft)]
          | none => []
        else []
      let bothGone :=
        (room.host.socketId == some socketId && !(jsTruthy room.guest.socketId))
        || (room.guest.socketId == some socketId && !(jsTruthy room.host.socketId))
      let st1 :=
        if bothGone then { st with rooms := rdel roomId st.rooms }
        else
          let room1 :=
            if room.host.socketId == some socketId then
              { room with host := { room.host with socketId := none } }
            else if room.guest.socketId == some socketId then
              { room with guest := { room.guest with socketId := none } }
            else room
          { st with rooms := rset roomId room1 st.rooms }
      ({ st1 with socketMap := rdel socketId st1.socketMap }, emits)

/-- A room record is fully paired when both participant slots are populated
and it is no longer pending. -/
def fullyPaired (r : RoomData) : Bool :=
  r.userA.isSome && r.userB.isSome && !r.pendingUserA

/-- Whether an event is a joinedRoom notification. -/
def Event.isJoinedRoom : Event → Bool
  | Event.joinedRoom _ _ => true
  | _ => false

/-- Number of events in a trace delivered to a given socket satisfying a
payload predicate. -/
def countEventsTo (c : String) (p : Event → Bool) (evs : List (String × Event)) : Nat :=
  (evs.filter (fun e => e.1 == c && p e.2)).length

/-- Post-state property asserted by the disconnect claim for a departed
participant occupying slot userA: the room record was deleted, or the
connection id of that slot was cleared. -/
def roomGoneOrSlotCleared (o : Option StoredRoom) : Bool :=
  match o with
  | none => true
  | some r => r.data.userA.isNone

/-- C9 counterexample: a POST /generate-qr request carrying a language but
without body.useHttp = true stores its token with TTL 120 seconds, not
the long TTL 600, refuting "always uses the long TTL". -/
theorem http_issuance_short_ttl_counterexample :
    (rget "tok" ((generateQrHttp false none (some "en") "tok"
        ⟨[], [], [], [], []⟩).1).tokens).map StoredToken.ttl = some 120
    ∧ (120 : Nat) ≠ 600 := by
  exact ⟨rfl, by decide⟩

/-- C9 (amended): POST /generate-qr stores the generated token with the full
record it builds, and the TTL is 600 seconds exactly when the request sets
useHttp, otherwise 120 seconds. -/
theorem http_issuance_ttl_amended (useHttp : Bool) (socketId language : Option String)
    (freshToken : String) (st : ServerState) :
    rget freshToken ((generateQrHttp useHttp socketId language freshToken st).1).tokens =
      some ⟨⟨socketId.getD "http-generated", some (language.getD "en"), useHttp⟩,
            if useHttp then 600 else 120⟩ := by
  simp [generateQrHttp, rget, rset, List.lookup]

/-- C2: after a deferred redemption (pending room) is completed by
listenForToken, the token is still present in the store, and a second
join with the same token succeeds (it creates a second fully populated
room and emits joinedRoom to both parties) instead of failing with the
invalid-token error. -/
theorem deferred_redemption_keeps_token_second_join_succeeds :
    let st0 : ServerState := ⟨[], [], [], [], ["A", "B", "C"]⟩
    let st1 := (generateQrHttp true none (some "en") "tok" st0).1
    let st2 := (join "B" "tok" "es" "R1" st1).1
    let st3 := (listenForToken "A" "tok" (some "en") st2).1
    -- the deferred pairing has completed:
    rget "R1" st3.rooms =
      some ⟨⟨some "tok", some ⟨"A", "en"⟩, some ⟨"B", "es"⟩, false⟩, some 600⟩
    -- yet the redeemed token was not deleted:
    ∧ rget "tok" st3.tokens =
        some ⟨⟨"A", some "en", true⟩, 600⟩
    -- and a second redemption of the same token succeeds:
    ∧ (join "C" "tok" "fr" "R2" st3).2 =
        [("C", Event.joinedRoom "R2" "en"), ("A", Event.joinedRoom "R2" "fr")]
    ∧ rget "R2" (join "C" "tok" "fr" "R2" st3).1.rooms =
        some ⟨⟨none, some ⟨"A", "en"⟩, some ⟨"C", "fr"⟩, false⟩, none⟩ := by
  exact ⟨rfl, rfl, rfl, rfl⟩

/-- C5: issue a token for language en over HTTP, bind issuer C1 with
language en (no pending room exists), then redeem from C2 with language
es while C1 is connected: C1 gets joinedRoom with partnerLanguage es,
C2 gets joinedRoom with partnerLanguage en, and the token is deleted. -/
theorem full_pairing_scenario (c1 c2 T R : String) (conns : List String)
    (h1 : c1 ∈ conns) :
    let st0 : ServerState := ⟨[], [], [], [], conns⟩
    let st1 := (generateQrHttp true none (some "en") T st0).1
    let st2 := (listenForToken c1 T (some "en") st1).1
    let res := join c2 T "es" R st2
    res.2 = [(c2, Event.joinedRoom R "en"), (c1, Event.joinedRoom R "es")]
    ∧ rget T res.1.tokens = none := by
  intro st0 st1 st2 res
  have hb : (T == T) = true := beq_self_eq_true T
  simp only [st0, st1, st2, res, generateQrHttp, listenForToken, join, scanPendingRooms,
    rget, rset, rdel, Option.getD, List.lookup, List.filter, hb, if_true,
    List.contains, List.elem_eq_mem, h1]
  simp [h1, List.lookup, hb]

/-- C6: redeeming an unbound HTTP-issued token before any issuer binds
emits waitingForHost to the redeemer only, persists a pending room
holding the redeemer as participant B, and keeps the token in the store. -/
theorem pending_redemption_scenario (c3 T R lHost : String) (conns : List String)
    (hng : "http-generated" ∉ conns) :
    let st0 : ServerState := ⟨[], [], [], [], conns⟩
    let st1 := (generateQrHttp true none (some lHost) T st0).1
    let res := join c3 T "fr" R st1
    res.2 = [(c3, Event.waitingForHost T R), (c3, Event.waitingForHost T R)]
    ∧ rget R res.1.rooms = some ⟨⟨some T, none, some ⟨c3, "fr"⟩, true⟩, some 600⟩
    ∧ rget T res.1.tokens = some ⟨⟨"http-generated", some lHost, true⟩, 600⟩ := by
  intro st0 st1 res
  simp only [st0, st1, res, generateQrHttp, join, rget, rset, rdel, roomMembers,
    Option.getD, List.lookup, List.filter, List.contains, List.elem_eq_mem, hng]
  simp [hng, List.lookup]

/-- C10: the generateToken socket event stores a token record with no
issuer language, and redeeming any token whose record carries no
hostLanguage while the issuer is connected takes the issuer language to
be "en": the redeemer receives joinedRoom with partnerLanguage "en" and
the room stores "en" as the issuer slot language. -/
theorem generate_token_defaults_language_en :
    (∀ (s tok : String) (st : ServerState),
      rget tok ((generateToken s tok st).1).tokens = some ⟨⟨s, none, false⟩, 300⟩)
    ∧ (∀ (st : ServerState) (c2 T lB R cA : String) (ttl : Nat),
        rget T st.tokens = some ⟨⟨cA, none, false⟩, ttl⟩ → cA ∈ st.connected →
        (join c2 T lB R st).2 =
          [(c2, Event.joinedRoom R "en"), (cA, Event.joinedRoom R lB)]
        ∧ rget R ((join c2 T lB R st).1).rooms =
            some ⟨⟨none, some ⟨cA, "en"⟩, some ⟨c2, lB⟩, false⟩, none⟩) := by
  constructor
  · intro s tok st
    simp [generateToken, rget, rset, List.lookup]
  · intro st c2 T lB R cA ttl h1 h2
    simp only [rget] at h1
    simp [join, h1, rget, rset, List.lookup, List.contains, List.elem_eq_mem, h2]

/-- C10 witness: a concrete redemption of a languageless token record. -/
theorem generate_token_defaults_language_en_witness :
    (join "B" "T" "fr" "R" ⟨[("T", ⟨⟨"A", none, false⟩, 300⟩)], [], [], [], ["A"]⟩).2 =
      [("B", Event.joinedRoom "R" "en"), ("A", Event.joinedRoom "R" "fr")] :=
  (generate_token_defaults_language_en.2
    ⟨[("T", ⟨⟨"A", none, false⟩, 300⟩)], [], [], [], ["A"]⟩
    "B" "T" "fr" "R" "A" 300 rfl (by decide)).1

/-- C7: relaying into a room whose record matches the sender in one slot
while the other slot is absent fails with the partner-unavailable error
reported to the sender only, performs no state change (so the sender can
retry in the same room without re-joining), and never calls the
translation collaborator. -/
theorem relay_partner_unavailable (st : ServerState) (roomId s sl m : String)
    (tk : Option String) (p : Bool) (ttl : Option Nat)
    (translate : String → String → String → Option String)
    (h : rget roomId st.rooms = some ⟨⟨tk, some ⟨s, sl⟩, none, p⟩, ttl⟩
       ∨ rget roomId st.rooms = some ⟨⟨tk, none, some ⟨s, sl⟩, p⟩, ttl⟩) :
    sendMessage translate s roomId m st =
      ⟨st, [(s, Event.errorMsg "Error: Partner is not available for translation.")], false⟩ := by
  rcases h with h | h <;> simp [sendMessage, h]

/-- C7 witness: a concrete pending room where the sender occupies slot B. -/
theorem relay_partner_unavailable_witness :
    sendMessage (fun _ _ _ => none) "B" "R" "hi"
        ⟨[], [("R", ⟨⟨some "tok", none, some ⟨"B", "es"⟩, true⟩, some 600⟩)], [], [], ["B"]⟩ =
      ⟨⟨[], [("R", ⟨⟨some "tok", none, some ⟨"B", "es"⟩, true⟩, some 600⟩)], [], [], ["B"]⟩,
       [("B", Event.errorMsg "Error: Partner is not available for translation.")], false⟩ :=
  relay_partner_unavailable _ "R" "B" "es" "hi" (some "tok") true (some 600) _
    (Or.inr rfl)

/-- C8: when sender and recipient languages are equal, the relay never
invokes the translation collaborator and both deliveries carry the
original text as the translated text. -/
theorem same_language_relay (st : ServerState) (roomId s rid sl m : String)
    (tk : Option String) (p : Bool) (ttl : Option Nat)
    (translate : String → String → String → Option String)
    (hrid : rid ≠ "") (hsl : sl ≠ "")
    (h : rget roomId st.rooms = some ⟨⟨tk, some ⟨s, sl⟩, some ⟨rid, sl⟩, p⟩, ttl⟩
       ∨ (rget roomId st.rooms = some ⟨⟨tk, some ⟨rid, sl⟩, some ⟨s, sl⟩, p⟩, ttl⟩ ∧ s ≠ rid)) :
    sendMessage translate s roomId m st =
      ⟨st, (if st.connected.contains rid then [(rid, Event.newMessage m m "partner")] else [])
            ++ [(s, Event.newMessage m m "self")], false⟩ := by
  have h1 : (rid == "") = false := beq_eq_false_iff_ne.mpr hrid
  have h2 : (sl == "") = false := beq_eq_false_iff_ne.mpr hsl
  rcases h with h | ⟨h, hns⟩
  · simp [sendMessage, h, h1, h2]
  · have h3 : (rid == s) = false := beq_eq_false_iff_ne.mpr (Ne.symm hns)
    simp [sendMessage, h, h1, h2, h3]

/-- C8 witness: concrete same-language relay in both slot orientations. -/
theorem same_language_relay_witness :
    sendMessage (fun _ _ _ => some "SHOULD NOT APPEAR") "A" "R" "hey"
        ⟨[], [("R", ⟨⟨none, some ⟨"A", "en"⟩, some ⟨"B", "en"⟩, false⟩, none⟩)], [], [], ["A", "B"]⟩ =
      ⟨⟨[], [("R", ⟨⟨none, some ⟨"A", "en"⟩, some ⟨"B", "en"⟩, false⟩, none⟩)], [], [], ["A", "B"]⟩,
       [("B", Event.newMessage "hey" "hey" "partner"),
        ("A", Event.newMessage "hey" "hey" "self")], false⟩ := by
  have := same_language_relay
    ⟨[], [("R", ⟨⟨none, some ⟨"A", "en"⟩, some ⟨"B", "en"⟩, false⟩, none⟩)], [], [], ["A", "B"]⟩
    "R" "A" "B" "en" "hey" none false none (fun _ _ _ => some "SHOULD NOT APPEAR")
    (by decide) (by decide) (Or.inl rfl)
  simpa using this

/-- C3 counterexample: with differing languages and a failing translation
collaborator, the relay delivers the literal marker as the translated
text, which differs from the original message text, refuting
"the delivered translatedText equals the original message text". -/
theorem translation_failure_marker_counterexample :
    let st : ServerState :=
      ⟨[], [("R", ⟨⟨none, some ⟨"A", "en"⟩, some ⟨"B", "es"⟩, false⟩, none⟩)], [], [], ["A", "B"]⟩
    (sendMessage (fun _ _ _ => none) "A" "R" "hola" st).emits =
      [("B", Event.newMessage "hola" "(Translation failed)" "partner"),
       ("A", Event.newMessage "hola" "(Translation failed)" "self")]
    ∧ "(Translation failed)" ≠ "hola" := by
  exact ⟨rfl, by decide⟩

/-- C3 (amended): when the languages differ and the translation
collaborator fails, the relay is not aborted — the message is still
delivered to the connected recipient and echoed to the sender — but the
delivered translated text is the literal failure marker in place of a
translation (the original text still travels in the original field); the
service-layer translateMessage likewise degrades to a bracketed error
marker prefixed to the original text. -/
theorem translation_failure_degradation_amended :
    (∀ (st : ServerState) (roomId s rid sl rl m : String)
       (tk : Option String) (p : Bool) (ttl : Option Nat)
       (translate : String → String → String → Option String),
      (rget roomId st.rooms = some ⟨⟨tk, some ⟨s, sl⟩, some ⟨rid, rl⟩, p⟩, ttl⟩
       ∨ (rget roomId st.rooms = some ⟨⟨tk, some ⟨rid, rl⟩, some ⟨s, sl⟩, p⟩, ttl⟩
          ∧ s ≠ rid)) →
      sl ≠ rl → rid ≠ "" → rl ≠ "" → rid ∈ st.connected →
      translate sl rl m = none →
      sendMessage translate s roomId m st =
        ⟨st, [(rid, Event.newMessage m "(Translation failed)" "partner"),
              (s, Event.newMessage m "(Translation failed)" "self")], true⟩)
    ∧ (∀ (api : String → String → String → Option String) (text srcL tgtL : String),
        srcL ≠ tgtL → api text srcL tgtL = none →
        translateMessage api text srcL tgtL = "[Translation Error] " ++ text) := by
  constructor
  · intro st roomId s rid sl rl m tk p ttl translate h hdiff hrid hrl hconn hfail
    have h1 : (rid == "") = false := beq_eq_false_iff_ne.mpr hrid
    have h2 : (rl == "") = false := beq_eq_false_iff_ne.mpr hrl
    have h3 : (sl == rl) = false := beq_eq_false_iff_ne.mpr hdiff
    rcases h with h | ⟨h, hns⟩
    · simp [sendMessage, h, h1, h2, h3, hfail, List.contains, List.elem_eq_mem, hconn]
    · have h4 : (rid == s) = false := beq_eq_false_iff_ne.mpr (Ne.symm hns)
      simp [sendMessage, h, h1, h2, h3, h4, hfail, List.contains, List.elem_eq_mem, hconn]
  · intro api text srcL tgtL hdiff hfail
    have h3 : (srcL == tgtL) = false := beq_eq_false_iff_ne.mpr hdiff
    simp [translateMessage, h3, hfail]

/-- C3 witness: concrete failing relays with the sender in slot userA and
in slot userB, and a concrete failing service call, all instantiating
the amended theorem. -/
theorem translation_failure_degradation_amended_witness :
    sendMessage (fun _ _ _ => none) "A" "R" "hola"
        ⟨[], [("R", ⟨⟨none, some ⟨"A", "en"⟩, some ⟨"B", "es"⟩, false⟩, none⟩)], [], [], ["A", "B"]⟩ =
      ⟨⟨[], [("R", ⟨⟨none, some ⟨"A", "en"⟩, some ⟨"B", "es"⟩, false⟩, none⟩)], [], [], ["A", "B"]⟩,
       [("B", Event.newMessage "hola" "(Translation failed)" "partner"),
        ("A", Event.newMessage "hola" "(Translation failed)" "self")], true⟩
    ∧ sendMessage (fun _ _ _ => none) "B" "R" "hello"
        ⟨[], [("R", ⟨⟨none, some ⟨"A", "en"⟩, some ⟨"B", "es"⟩, false⟩, none⟩)], [], [], ["A", "B"]⟩ =
      ⟨⟨[], [("R", ⟨⟨none, some ⟨"A", "en"⟩, some ⟨"B", "es"⟩, false⟩, none⟩)], [], [], ["A", "B"]⟩,
       [("A", Event.newMessage "hello" "(Translation failed)" "partner"),
        ("B", Event.newMessage "hello" "(Translation failed)" "self")], true⟩
    ∧ translateMessage (fun _ _ _ => none) "hola" "es" "en" = "[Translation Error] hola" := by
  refine ⟨translation_failure_degradation_amended.1 _ "R" "A" "B" "en" "es" "hola"
    none false none _ (Or.inl rfl) (by decide) (by decide) (by decide) (by decide) rfl,
    translation_failure_degradation_amended.1 _ "R" "B" "A" "es" "en" "hello"
    none false none _ (Or.inr ⟨rfl, by decide⟩) (by decide) (by decide) (by decide)
    (by decide) rfl, ?_⟩
  exact translation_failure_degradation_amended.2 _ "hola" "es" "en" (by decide) rfl

theorem rget_rset_self {α : Type} (k : String) (v : α) (l : List (String × α)) :
    rget k (rset k v l) = some v := by
  simp [rget, rset, List.lookup]

theorem rget_rdel_self {α : Type} (k : String) (l : List (String × α)) :
    rget k (rdel k l) = none := by
  induction l with
  | nil => rfl
  | cons p rest ih =>
    obtain ⟨a, v⟩ := p
    simp only [rdel, rget, List.filter_cons] at ih ⊢
    by_cases hp : a = k
    · have h1 : (a == k) = true := beq_iff_eq.mpr hp
      simpa [h1] using ih
    · have h1 : (a == k) = false := beq_eq_false_iff_ne.mpr hp
      have h2 : (k == a) = false := beq_eq_false_iff_ne.mpr (Ne.symm hp)
      simpa [h1, h2, List.lookup] using ih

/-- C5 witness: the full-pairing scenario run on concrete identifiers. -/
theorem full_pairing_scenario_witness :
    (join "C2" "T" "es" "R"
        ((listenForToken "C1" "T" (some "en")
          ((generateQrHttp true none (some "en") "T"
            ⟨[], [], [], [], ["C1", "C2"]⟩).1)).1)).2 =
      [("C2", Event.joinedRoom "R" "en"), ("C1", Event.joinedRoom "R" "es")]
    ∧ rget "T" ((join "C2" "T" "es" "R"
        ((listenForToken "C1" "T" (some "en")
          ((generateQrHttp true none (some "en") "T"
            ⟨[], [], [], [], ["C1", "C2"]⟩).1)).1)).1).tokens = none :=
  full_pairing_scenario "C1" "C2" "T" "R" ["C1", "C2"] (by decide)

/-- C6 witness: the pending-redemption scenario run on concrete identifiers. -/
theorem pending_redemption_scenario_witness :
    (join "C3" "T2" "fr" "R"
        ((generateQrHttp true none (some "en") "T2" ⟨[], [], [], [], ["C3"]⟩).1)).2 =
      [("C3", Event.waitingForHost "T2" "R"), ("C3", Event.waitingForHost "T2" "R")]
    ∧ rget "R" ((join "C3" "T2" "fr" "R"
        ((generateQrHttp true none (some "en") "T2" ⟨[], [], [], [], ["C3"]⟩).1)).1).rooms =
        some ⟨⟨some "T2", none, some ⟨"C3", "fr"⟩, true⟩, some 600⟩
    ∧ rget "T2" ((join "C3" "T2" "fr" "R"
        ((generateQrHttp true none (some "en") "T2" ⟨[], [], [], [], ["C3"]⟩).1)).1).tokens =
        some ⟨⟨"http-generated", some "en", true⟩, 600⟩ :=
  pending_redemption_scenario "C3" "T2" "R" "en" ["C3"] (by decide)

/-- C4 counterexample: after the JS backend disconnect handler runs for A
with partner B present, the room record is neither deleted nor is the
slot of A cleared — it still holds the connection id of A — refuting the
claimed property that the slot of A is cleared or the room deleted. -/
theorem disconnect_retains_room_counterexample :
    roomGoneOrSlotCleared (rget "R" ((disconnectJs "A"
      ⟨[], [("R", ⟨⟨none, some ⟨"A", "en"⟩, some ⟨"B", "es"⟩, false⟩, none⟩)],
       [("A", "R"), ("B", "R")], [("A", "R"), ("B", "R")], ["A", "B"]⟩).1).rooms) = false := by
  rfl

/-- C4 (amended): disconnecting A with partner B present — A in either
slot of the room — sends exactly one partnerLeft to B, removes the
connection-to-room mapping of A, and a second invocation notifies nobody
and changes nothing (idempotent); the TS server handler moreover clears
the slot of A in the room record, while the JS backend handler leaves
every room record entirely unchanged — the connection id is neither
cleared nor the room deleted. -/
theorem disconnect_partner_present_amended :
    (∀ (st : ServerState) (A B roomId la lb : String) (tk : Option String)
       (p : Bool) (ttl : Option Nat),
      rget A st.userSocket = some roomId →
      (rget roomId st.rooms = some ⟨⟨tk, some ⟨A, la⟩, some ⟨B, lb⟩, p⟩, ttl⟩
       ∨ rget roomId st.rooms = some ⟨⟨tk, some ⟨B, lb⟩, some ⟨A, la⟩, p⟩, ttl⟩) →
      B ∈ st.connected → A ≠ B → B ≠ "" →
      (disconnectJs A st).2 = [(B, Event.partnerLeft)]
      ∧ rget A ((disconnectJs A st).1).userSocket = none
      ∧ ((disconnectJs A st).1).rooms = st.rooms
      ∧ (disconnectJs A ((disconnectJs A st).1)).2 = []
      ∧ (disconnectJs A ((disconnectJs A st).1)).1 = (disconnectJs A st).1)
    ∧ (∀ (ts : TsState) (A B roomId hl gl : String),
        rget A ts.socketMap = some roomId → A ≠ B → B ≠ "" →
        (rget roomId ts.rooms = some ⟨⟨some A, hl⟩, ⟨some B, gl⟩⟩ →
          (disconnectTs A ts).2 = [(B, Event.partnerLeft)]
          ∧ rget A ((disconnectTs A ts).1).socketMap = none
          ∧ rget roomId ((disconnectTs A ts).1).rooms = some ⟨⟨none, hl⟩, ⟨some B, gl⟩⟩
          ∧ disconnectTs A ((disconnectTs A ts).1) = ((disconnectTs A ts).1, []))
        ∧ (rget roomId ts.rooms = some ⟨⟨some B, hl⟩, ⟨some A, gl⟩⟩ →
          (disconnectTs A ts).2 = [(B, Event.partnerLeft)]
          ∧ rget A ((disconnectTs A ts).1).socketMap = none
          ∧ rget roomId ((disconnectTs A ts).1).rooms = some ⟨⟨some B, hl⟩, ⟨none, gl⟩⟩
          ∧ disconnectTs A ((disconnectTs A ts).1) = ((disconnectTs A ts).1, []))) := by
  constructor
  · intro st A B roomId la lb tk p ttl hmap hroom hBconn hAB hBne
    have hBA : (B == A) = false := beq_eq_false_iff_ne.mpr (Ne.symm hAB)
    have hBe : (B == "") = false := beq_eq_false_iff_ne.mpr hBne
    have hBmem : B ∈ st.connected.filter (fun c => !(c == A)) :=
      List.mem_filter.mpr ⟨hBconn, by simp [hBA]⟩
    rcases hroom with hroom | hroom <;>
    · refine ⟨?_, ?_, ?_, ?_, ?_⟩
      · simp [disconnectJs, hmap, hroom, hBe, hBA, Option.any,
          List.contains, List.elem_eq_mem, hBmem]
      · simp [disconnectJs, hmap, hroom, hBe, hBA, Option.any, rget_rdel_self,
          List.contains, List.elem_eq_mem, hBmem]
      · simp [disconnectJs, hmap, hroom, hBe, hBA, Option.any,
          List.contains, List.elem_eq_mem, hBmem]
      · simp [disconnectJs, hmap, hroom, hBe, hBA, Option.any, rget_rdel_self,
          List.contains, List.elem_eq_mem, hBmem]
      · simp [disconnectJs, hmap, hroom, hBe, hBA, Option.any, rget_rdel_self,
          List.filter_filter, List.contains, List.elem_eq_mem, hBmem]
  · intro ts A B roomId hl gl hmap hAB hBne
    have hBe : (B == "") = false := beq_eq_false_iff_ne.mpr hBne
    have hBAp : ¬ (B = A) := fun hh => hAB hh.symm
    constructor
    · intro hroom
      refine ⟨?_, ?_, ?_, ?_⟩
      · simp [disconnectTs, hmap, hroom, jsTruthy, hBe, hBAp]
      · simp [disconnectTs, hmap, hroom, jsTruthy, hBe, hBAp, rget_rdel_self]
      · simp [disconnectTs, hmap, hroom, jsTruthy, hBe, hBAp, rget_rset_self]
      · simp [disconnectTs, hmap, hroom, jsTruthy, hBe, hBAp, rget_rdel_self]
    · intro hroom
      refine ⟨?_, ?_, ?_, ?_⟩
      · simp [disconnectTs, hmap, hroom, jsTruthy, hBe, hBAp]
      · simp [disconnectTs, hmap, hroom, jsTruthy, hBe, hBAp, rget_rdel_self]
      · simp [disconnectTs, hmap, hroom, jsTruthy, hBe, hBAp, rget_rset_self]
      · simp [disconnectTs, hmap, hroom, jsTruthy, hBe, hBAp, rget_rdel_self]

/-- C4 witness: the amended disconnect behavior on concrete rooms for both
handler iterations, with the departing socket in either slot. -/
theorem disconnect_partner_present_amended_witness :
    ((disconnectJs "A"
        ⟨[], [("R", ⟨⟨none, some ⟨"A", "en"⟩, some ⟨"B", "es"⟩, false⟩, none⟩)],
         [("A", "R"), ("B", "R")], [("A", "R"), ("B", "R")], ["A", "B"]⟩).2 =
      [("B", Event.partnerLeft)])
    ∧ ((disconnectJs "A"
        ⟨[], [("R", ⟨⟨none, some ⟨"B", "es"⟩, some ⟨"A", "en"⟩, false⟩, none⟩)],
         [("A", "R"), ("B", "R")], [("A", "R"), ("B", "R")], ["A", "B"]⟩).2 =
      [("B", Event.partnerLeft)])
    ∧ ((disconnectTs "A"
        ⟨[("R", ⟨⟨some "A", "en"⟩, ⟨some "B", "es"⟩⟩)], [("A", "R"), ("B", "R")]⟩).2 =
      [("B", Event.partnerLeft)])
    ∧ ((disconnectTs "A"
        ⟨[("R", ⟨⟨some "B", "en"⟩, ⟨some "A", "es"⟩⟩)], [("A", "R"), ("B", "R")]⟩).2 =
      [("B", Event.partnerLeft)]) :=
  ⟨(disconnect_partner_present_amended.1
      ⟨[], [("R", ⟨⟨none, some ⟨"A", "en"⟩, some ⟨"B", "es"⟩, false⟩, none⟩)],
       [("A", "R"), ("B", "R")], [("A", "R"), ("B", "R")], ["A", "B"]⟩
      "A" "B" "R" "en" "es" none false none rfl (Or.inl rfl)
      (by decide) (by decide) (by decide)).1,
   (disconnect_partner_present_amended.1
      ⟨[], [("R", ⟨⟨none, some ⟨"B", "es"⟩, some ⟨"A", "en"⟩, false⟩, none⟩)],
       [("A", "R"), ("B", "R")], [("A", "R"), ("B", "R")], ["A", "B"]⟩
      "A" "B" "R" "en" "es" none false none rfl (Or.inr rfl)
      (by decide) (by decide) (by decide)).1,
   ((disconnect_partner_present_amended.2
      ⟨[("R", ⟨⟨some "A", "en"⟩, ⟨some "B", "es"⟩⟩)], [("A", "R"), ("B", "R")]⟩
      "A" "B" "R" "en" "es" rfl (by decide) (by decide)).1 rfl).1,
   ((disconnect_partner_present_amended.2
      ⟨[("R", ⟨⟨some "B", "en"⟩, ⟨some "A", "es"⟩⟩)], [("A", "R"), ("B", "R")]⟩
      "A" "B" "R" "en" "es" rfl (by decide) (by decide)).2 rfl).1⟩

/-- C1: issuing a token and then running issuer binding and redemption in
either order — (a) bind issuer, then redeem; (b) redeem (creating a
pending room), then bind issuer (whose scan completes the pairing) —
ends with exactly one fully-paired room record and exactly one
joinedRoom event delivered to each of the two participants. -/
theorem pairing_order_independence (cA cB lA lB T R : String)
    (hne : cA ≠ cB) (hA : cA ≠ "http-generated") (hB : cB ≠ "http-generated") :
    (((join cB T lB R ((listenForToken cA T (some lA)
          ((generateQrHttp true none (some lA) T
            ⟨[], [], [], [], [cA, cB]⟩).1)).1)).1.rooms.countP
        (fun q => fullyPaired q.2.data) = 1)
     ∧ countEventsTo cA Event.isJoinedRoom
         ((listenForToken cA T (some lA)
            ((generateQrHttp true none (some lA) T
              ⟨[], [], [], [], [cA, cB]⟩).1)).2
          ++ (join cB T lB R ((listenForToken cA T (some lA)
               ((generateQrHttp true none (some lA) T
                 ⟨[], [], [], [], [cA, cB]⟩).1)).1)).2) = 1
     ∧ countEventsTo cB Event.isJoinedRoom
         ((listenForToken cA T (some lA)
            ((generateQrHttp true none (some lA) T
              ⟨[], [], [], [], [cA, cB]⟩).1)).2
          ++ (join cB T lB R ((listenForToken cA T (some lA)
               ((generateQrHttp true none (some lA) T
                 ⟨[], [], [], [], [cA, cB]⟩).1)).1)).2) = 1)
    ∧ (((listenForToken cA T (some lA) ((join cB T lB R
           ((generateQrHttp true none (some lA) T
             ⟨[], [], [], [], [cA, cB]⟩).1)).1)).1.rooms.countP
         (fun q => fullyPaired q.2.data) = 1)
     ∧ countEventsTo cA Event.isJoinedRoom
         ((join cB T lB R ((generateQrHttp true none (some lA) T
             ⟨[], [], [], [], [cA, cB]⟩).1)).2
          ++ (listenForToken cA T (some lA) ((join cB T lB R
               ((generateQrHttp true none (some lA) T
                 ⟨[], [], [], [], [cA, cB]⟩).1)).1)).2) = 1
     ∧ countEventsTo cB Event.isJoinedRoom
         ((join cB T lB R ((generateQrHttp true none (some lA) T
             ⟨[], [], [], [], [cA, cB]⟩).1)).2
          ++ (listenForToken cA T (some lA) ((join cB T lB R
               ((generateQrHttp true none (some lA) T
                 ⟨[], [], [], [], [cA, cB]⟩).1)).1)).2) = 1) := by
  have h1 : (cA == cB) = false := beq_eq_false_iff_ne.mpr hne
  have h2 : (cB == cA) = false := beq_eq_false_iff_ne.mpr (Ne.symm hne)
  have h3 : ("http-generated" == cA) = false := beq_eq_false_iff_ne.mpr (Ne.symm hA)
  have h4 : ("http-generated" == cB) = false := beq_eq_false_iff_ne.mpr (Ne.symm hB)
  have h5 : (cA == "http-generated") = false := beq_eq_false_iff_ne.mpr hA
  have h6 : (cB == "http-generated") = false := beq_eq_false_iff_ne.mpr hB
  refine ⟨⟨?_, ?_, ?_⟩, ⟨?_, ?_, ?_⟩⟩ <;>
    simp [generateQrHttp, listenForToken, join, scanPendingRooms, roomMembers,
      countEventsTo, Event.isJoinedRoom, fullyPaired, rget, rset, rdel,
      List.lookup, List.contains, List.elem, List.filter,
      List.countP_cons, List.countP_nil,
      h1, h2, h3, h4, h5, h6]

/-- C1 witness: both orderings on concrete identifiers. -/
theorem pairing_order_independence_witness :
    ((join "C2" "tok" "es" "R1" ((listenForToken "C1" "tok" (some "en")
        ((generateQrHttp true none (some "en") "tok"
          ⟨[], [], [], [], ["C1", "C2"]⟩).1)).1)).1.rooms.countP
      (fun q => fullyPaired q.2.data) = 1)
    ∧ ((listenForToken "C1" "tok" (some "en") ((join "C2" "tok" "es" "R1"
        ((generateQrHttp true none (some "en") "tok"
          ⟨[], [], [], [], ["C1", "C2"]⟩).1)).1)).1.rooms.countP
      (fun q => fullyPaired q.2.data) = 1) :=
  ⟨(pairing_order_independence "C1" "C2" "en" "es" "tok" "R1"
      (by decide) (by decide) (by decide)).1.1,
   (pairing_order_independence "C1" "C2" "en" "es" "tok" "R1"
      (by decide) (by decide) (by decide)).2.1⟩

end Kodo
